import Mathlib

/-!
Shallow embedding of the consul-client operator core:
the config builder (src/config_builder.py), the config reconciler
(src/charm.py), and the TCP reachability monitor with its alert transport
(src/tcp_health_check.py).  Python values that flow through the reconciler
are modelled by an explicit value type so that the dynamic typing of the
source (in particular the str-vs-dict comparison in the reconciler) is
represented faithfully.  External effects (socket probes, the Unix-socket
peer, the process environment, file contents) are inputs; file writes,
alert sends and status updates are recorded in explicit result structures.
-/

/-- Python exceptions that the embedded code can raise. -/
inductive PyExc where
  | valueError
  | keyError
  deriving DecidableEq, Repr

/-- Logging levels of the `logging` module calls in the source. -/
inductive LogLevel where
  | debug
  | info
  | warning
  | error
  deriving DecidableEq, Repr

/-- One log record: a level and the message text. -/
structure LogEntry where
  level : LogLevel
  msg : String
  deriving DecidableEq, Repr

/-- Python values as they appear in the configuration documents handled by
the source: strings, ints, bools, None, lists and (insertion-ordered)
dicts. -/
inductive PyVal where
  | str (s : String)
  | int (n : Int)
  | bool (b : Bool)
  | none
  | list (xs : List PyVal)
  | dict (kvs : List (String × PyVal))

/-- Key lookup on a Python dict value; on any non-dict value the key is
absent.  Mirrors `config.get(key)` / `key in config`. -/
def PyVal.get (v : PyVal) (k : String) : Option PyVal :=
  match v with
  | .dict kvs => kvs.lookup k
  | _ => Option.none

/-- Python truthiness of an optional string (`None` and `""` are falsy). -/
def pyTruthyStr : Option String → Bool
  | Option.none => false
  | some s => !s.isEmpty

/-- Python truthiness of an optional list (`None` and `[]` are falsy). -/
def pyTruthyList : Option (List String) → Bool
  | Option.none => false
  | some l => !l.isEmpty

/-- Splitting of a character list at every occurrence of `sep`, the
semantics of Python `str.split(sep)` for a one-character separator:
the result always has one more group than there are separators, so
`"a:b"` gives two groups, `""` gives one empty group, and `":"` gives
two empty groups. -/
def pySplitChars (sep : Char) : List Char → List (List Char)
  | [] => [[]]
  | c :: rest =>
    let r := pySplitChars sep rest
    if c = sep then [] :: r
    else
      match r with
      | [] => [[c]]
      | g :: gs => (c :: g) :: gs

/-- Python `server.split(":")`. -/
def pySplit (s : String) (sep : Char) : List String :=
  (pySplitChars sep s.data).map (fun cs => String.mk cs)

/-- Decimal digit value of a character, if it is one. -/
def digitVal (c : Char) : Option Nat :=
  if 48 ≤ c.toNat ∧ c.toNat ≤ 57 then some (c.toNat - 48) else Option.none

/-- Accumulating decimal reading of a non-empty digit string. -/
def parseDigitsAux : List Char → Nat → Option Nat
  | [], acc => some acc
  | c :: rest, acc =>
    match digitVal c with
    | some d => parseDigitsAux rest (acc * 10 + d)
    | Option.none => Option.none

/-- A non-empty all-digit character list read as a decimal number. -/
def parseDigits : List Char → Option Nat
  | [] => Option.none
  | c :: rest => parseDigitsAux (c :: rest) 0

/-- Python whitespace as stripped by `int(str)`. -/
def isPySpace (c : Char) : Bool :=
  c = ' ' || c = '\t' || c = '\n' || c = '\r' || c.toNat = 11 || c.toNat = 12

/-- Python `int(str)`: optional surrounding whitespace and an optional
sign followed by decimal digits; anything else raises `ValueError`
(modelled as `Option.none`). -/
def pyInt? (s : String) : Option Int :=
  let t := ((s.data.dropWhile isPySpace).reverse.dropWhile isPySpace).reverse
  match t with
  | '-' :: rest => (parseDigits rest).map (fun n => -(n : Int))
  | '+' :: rest => (parseDigits rest).map (fun n => (n : Int))
  | _ => (parseDigits t).map (fun n => (n : Int))

/-- Python `os.path.join` for the two-argument case used by the alert
transport. -/
def pyPathJoin (a b : String) : String :=
  if b.startsWith "/" then b
  else if a.endsWith "/" || a.isEmpty then a ++ b
  else a ++ "/" ++ b

/-- Lowercase hexadecimal digit, as produced by `json.dumps` escapes. -/
def hexDigit (n : Nat) : Char :=
  if n < 10 then Char.ofNat (48 + n) else Char.ofNat (87 + n)

/-- Four-digit lowercase hex, for a `\uXXXX` escape. -/
def hex4 (n : Nat) : String :=
  String.mk [hexDigit (n / 4096 % 16), hexDigit (n / 256 % 16),
             hexDigit (n / 16 % 16), hexDigit (n % 16)]

/-- Escaping of one character inside a JSON string literal, following
`json.dumps` with its default `ensure_ascii=True`. -/
def jsonEscapeChar (c : Char) : String :=
  if c = '"' then "\\\""
  else if c = '\\' then "\\\\"
  else if c = '\n' then "\\n"
  else if c = '\t' then "\\t"
  else if c = '\r' then "\\r"
  else if c.toNat = 8 then "\\b"
  else if c.toNat = 12 then "\\f"
  else if c.toNat < 32 then "\\u" ++ hex4 c.toNat
  else if c.toNat < 127 then String.mk [c]
  else if c.toNat ≤ 65535 then "\\u" ++ hex4 c.toNat
  else
    let v := c.toNat - 65536
    "\\u" ++ hex4 (55296 + v / 1024) ++ "\\u" ++ hex4 (56320 + v % 1024)

/-- JSON string literal for `s`, as `json.dumps` renders it. -/
def jsonQuote (s : String) : String :=
  "\"" ++ String.join (s.toList.map jsonEscapeChar) ++ "\""

/-- A run of `n` spaces. -/
def spaces (n : Nat) : String :=
  String.mk (List.replicate n ' ')

mutual

/-- Python `json.dumps(v, indent=2)` at nesting level `lvl`: dict and list
items each on their own line, indented two further spaces, with the
default item separator `","` and key separator `": "`. -/
def pyDumps (v : PyVal) (lvl : Nat) : String :=
  match v with
  | .str s => jsonQuote s
  | .int n => toString n
  | .bool b => if b then "true" else "false"
  | .none => "null"
  | .list xs =>
    match xs with
    | [] => "[]"
    | _ => "[\n" ++ pyDumpsList xs (lvl + 1) ++ "\n" ++ spaces (2 * lvl) ++ "]"
  | .dict kvs =>
    match kvs with
    | [] => "\x7b\x7d"
    | _ => "\x7b\n" ++ pyDumpsDict kvs (lvl + 1) ++ "\n" ++ spaces (2 * lvl) ++ "\x7d"

/-- Renders the elements of a JSON array, one per line. -/
def pyDumpsList (xs : List PyVal) (lvl : Nat) : String :=
  match xs with
  | [] => ""
  | [x] => spaces (2 * lvl) ++ pyDumps x lvl
  | x :: rest => spaces (2 * lvl) ++ pyDumps x lvl ++ ",\n" ++ pyDumpsList rest lvl

/-- Renders the entries of a JSON object, one per line. -/
def pyDumpsDict (kvs : List (String × PyVal)) (lvl : Nat) : String :=
  match kvs with
  | [] => ""
  | [(k, v)] => spaces (2 * lvl) ++ jsonQuote k ++ ": " ++ pyDumps v lvl
  | (k, v) :: rest =>
      spaces (2 * lvl) ++ jsonQuote k ++ ": " ++ pyDumps v lvl ++ ",\n" ++
        pyDumpsDict rest lvl

end

/-- Python `==` with a `str` left operand, as performed by the reconciler:
`_running_consul_config` is always a `str` (the file text, or `""` when
the file was absent).  A Python `str` equals only an equal `str`; compared
with a value of any other type (such as the built config `dict`) the
result is `False`. -/
def pyEqStr (a : String) : PyVal → Bool
  | .str b => a == b
  | _ => false

/-- Ports used in consul (src/config_builder.py, class `Ports`), with the
pydantic field defaults. -/
structure Ports where
  dns : Int := 8600
  http : Int := 8500
  https : Int := -1
  grpc : Int := -1
  grpc_tls : Int := -1
  serf_lan : Int := 8301
  serf_wan : Int := 8302
  server : Int := 8300
  sidecar_min_port : Int := 21000
  sidecar_max_port : Int := 21255
  expose_min_port : Int := 21500
  expose_max_port : Int := 21755
  deriving DecidableEq, Repr

/-- The `Ports` instance with every field at its default. -/
def portsDefault : Ports := {}

/-- State of a `ConsulConfigBuilder` after `__init__`
(src/config_builder.py:38-54). -/
structure ConsulConfigBuilder where
  bind_address : String
  datacenter : String
  tcp_check : Bool
  snap_name : String
  consul_servers : List String
  ports : Ports
  unix_socket_filepath : Option String

/-- `ConsulConfigBuilder.__init__`: `self.bind_address = bind_address or
"0.0.0.0"` (Python `or` replaces both `None` and `""`); all other
arguments are stored unchanged. -/
def ConsulConfigBuilder.init (bind_address : Option String) (datacenter : String)
    (tcp_check : Bool) (snap_name : String) (consul_servers : List String)
    (ports : Ports) (unix_socket_filepath : Option String) : ConsulConfigBuilder :=
  { bind_address := if pyTruthyStr bind_address then bind_address.getD "" else "0.0.0.0"
    datacenter := datacenter
    tcp_check := tcp_check
    snap_name := snap_name
    consul_servers := consul_servers
    ports := ports
    unix_socket_filepath := unix_socket_filepath }

/-- `ConsulConfigBuilder.consul_tcp_check` property: the per-instance path
of the health-check probe artifact. -/
def ConsulConfigBuilder.consul_tcp_check (b : ConsulConfigBuilder) : String :=
  "/var/snap/" ++ b.snap_name ++ "/common/consul/data/tcp_health_check.py"

/-- `ConsulConfigBuilder.build` (src/config_builder.py:56-98).  `hostname`
stands for `get_hostname()` (external collaborator).  The
`_write_tcp_check_script` call in the health-check branch is an I/O side
effect (idempotent artifact copy) that does not contribute to the
returned document and is not modelled here. -/
def ConsulConfigBuilder.build (b : ConsulConfigBuilder) (hostname : String) : PyVal :=
  let base : List (String × PyVal) :=
    [("bind_addr", .str b.bind_address),
     ("datacenter", .str b.datacenter),
     ("node_name", .str hostname),
     ("ports", .dict
       [("dns", .int b.ports.dns), ("http", .int b.ports.http),
        ("https", .int b.ports.https), ("grpc", .int b.ports.grpc),
        ("grpc_tls", .int b.ports.grpc_tls), ("serf_lan", .int b.ports.serf_lan),
        ("serf_wan", .int b.ports.serf_wan), ("server", .int b.ports.server)]),
     ("retry_join", .list (b.consul_servers.map .str))]
  if b.tcp_check && pyTruthyStr b.unix_socket_filepath then
    let sp := b.unix_socket_filepath.getD ""
    let args := ["python3", b.consul_tcp_check] ++ b.consul_servers ++ ["--socket-path", sp]
    .dict (base ++
      [("enable_script_checks", .bool true),
       ("services", .list
         [.dict
           [("name", .str "tcp-health-check"),
            ("check", .dict
              [("id", .str "tcp-check"),
               ("name", .str "TCP Health Check"),
               ("args", .list (args.map .str)),
               ("interval", .str "10s"),
               ("timeout", .str "5s")])]])])
  else .dict base

/-- Outcome of the `recv`/`decode`/`strip` step of the alert transport:
either `recv` raises a `socket.error`, or decoding the bytes raises a
non-socket exception, or it yields the stripped response text. -/
inductive RecvOutcome where
  | sockErr
  | decodeErr
  | text (s : String)
  deriving DecidableEq, Repr

/-- Outcome of `json.loads` on the received response text: either it
raises (caught by the generic handler), or it yields an object whose
`status` and `message` fields are read with `.get`. -/
inductive ParseOutcome where
  | parseErr
  | obj (status : Option String) (message : Option String)
  deriving DecidableEq, Repr

/-- Behaviour of the external Unix-socket peer and OS for one alert
attempt: whether `connect` and `sendall` succeed, and what
`recv`/`json.loads` produce. -/
structure AlertAttempt where
  connectOk : Bool
  sendOk : Bool
  recv : RecvOutcome
  parse : ParseOutcome
  deriving DecidableEq, Repr

/-- An attempt in which every transport stage succeeds and the peer
answers with an ok status. -/
def attemptOk : AlertAttempt :=
  { connectOk := true, sendOk := true,
    recv := .text "\x7b\"status\": \"ok\"\x7d",
    parse := .obj (some "ok") Option.none }

/-- `send_nic_down_alert` (src/tcp_health_check.py:59-91).  `snapData` is
`os.environ` at key `SNAP_DATA`: the lookup `os.environ["SNAP_DATA"]`
happens before the `try` block, so a missing variable raises `KeyError`
to the caller.  Everything after it runs inside
`try ... except socket.error ... except Exception`, which catches every
failure of the connect, send, receive and parse stages and logs it at
error level; the alert message contents (version, wall-clock timestamp,
status) do not influence control flow and are not modelled. -/
def send_nic_down_alert (snapData : Option String) (socket_path : String)
    (att : AlertAttempt) : Except PyExc (List LogEntry) :=
  match snapData with
  | Option.none => .error .keyError
  | some base =>
    let path := pyPathJoin base socket_path
    let hdr : LogEntry :=
      ⟨.info, "Sending nic down alert signal via Unix socket at " ++ path ++ "..."⟩
    if !att.connectOk then .ok [hdr, ⟨.error, "Socket error: connect failed"⟩]
    else if !att.sendOk then .ok [hdr, ⟨.error, "Socket error: send failed"⟩]
    else
      match att.recv with
      | .sockErr => .ok [hdr, ⟨.error, "Socket error: recv failed"⟩]
      | .decodeErr => .ok [hdr, ⟨.error, "Error sending alert signal: decode failed"⟩]
      | .text s =>
        let respLog : LogEntry := ⟨.info, "Response: " ++ s⟩
        match att.parse with
        | .parseErr =>
            .ok [hdr, respLog, ⟨.error, "Error sending alert signal: invalid response"⟩]
        | .obj status message =>
          if status == some "error" then
            .ok [hdr, respLog, ⟨.error, "Error from server: " ++ message.getD "None"⟩]
          else .ok [hdr, respLog]

/-- The target parsing step of the probe loop
(src/tcp_health_check.py:116-117): `host, port = server.split(":")`
raises `ValueError` unless the split yields exactly two fields, and
`int(port)` raises `ValueError` on a non-numeric string. -/
def parseServer (s : String) : Except PyExc (String × Int) :=
  match pySplit s ':' with
  | [host, port] =>
    match pyInt? port with
    | some n => .ok (host, n)
    | Option.none => .error .valueError
  | _ => .error .valueError

/-- The `for server in servers` probe loop of `tcp_check`
(src/tcp_health_check.py:115-124): each target is parsed and probed in
order; a parse failure aborts the whole round at that target, while a
connect failure (`socket.timeout` / `socket.error`) is caught per target
and only records unreachability.  `probe host port` is the external TCP
connect outcome.  Returns the final `nic_down` flag. -/
def probeServers (probe : String → Int → Bool) : List String → Except PyExc Bool
  | [] => .ok false
  | s :: rest =>
    match parseServer s with
    | .error e => .error e
    | .ok (host, port) =>
      let reachable := probe host port
      match probeServers probe rest with
      | .error e => .error e
      | .ok restDown => .ok (restDown || !reachable)

/-- Observable effects of one `tcp_check` round: the successive
`failure_count` values passed to `write_failure_count`, the socket paths
passed to `send_nic_down_alert`, and the exception propagated to the
caller, if any. -/
structure TcpCheckResult where
  writes : List Nat
  alerts : List String
  exc : Option PyExc
  deriving DecidableEq, Repr

/-- `tcp_check` (src/tcp_health_check.py:94-154).  `prior` is the value
returned by `read_failure_count` (0 when the state file is absent or
unreadable); `write_failure_count` is best-effort and never raises, so a
write is recorded unconditionally.  `snapData` and `att` parameterise the
embedded `send_nic_down_alert`. -/
def tcp_check (servers : List String) (probe : String → Int → Bool)
    (socket_path : Option String) (monitoring_samples : Int) (prior : Nat)
    (snapData : Option String) (att : AlertAttempt) : TcpCheckResult :=
  match probeServers probe servers with
  | .error e => ⟨[], [], some e⟩
  | .ok nicDown =>
    if nicDown then
      let failure_count := prior + 1
      if (failure_count : Int) ≥ monitoring_samples then
        if pyTruthyStr socket_path then
          let sp := socket_path.getD ""
          match send_nic_down_alert snapData sp att with
          | .ok _ => ⟨[failure_count, 0], [sp], Option.none⟩
          | .error e => ⟨[failure_count], [sp], some e⟩
        else ⟨[failure_count], [], Option.none⟩
      else ⟨[failure_count], [], Option.none⟩
    else
      if prior > 0 then ⟨[0], [], Option.none⟩
      else ⟨[], [], Option.none⟩

/-- The argparse step of the `__main__` entry point
(src/tcp_health_check.py:157-169).  `servers` is declared with
`nargs="+"`, so the standard-library parser itself rejects an empty
positional list with a usage message and `sys.exit(2)` (the exit status
of `argparse.ArgumentParser.error`). -/
def parse_args_servers (positional : List String) : Except Nat (List String) :=
  if positional.isEmpty then .error 2 else .ok positional

/-- Exit code of the standalone entry point
(src/tcp_health_check.py:157-177): argparse rejects an empty server list
with exit code 2 before the explicit `if not args.servers: sys.exit(1)`
guard can run (that guard is unreachable); otherwise `tcp_check` runs,
and the process exits 0 when it returns normally and 1 when an unhandled
exception escapes it. -/
def main_exit_code (positional : List String) (socket_path : Option String)
    (monitoring_samples : Int) (probe : String → Int → Bool) (prior : Nat)
    (snapData : Option String) (att : AlertAttempt) : Nat :=
  match parse_args_servers positional with
  | .error code => code
  | .ok servers =>
    if servers.isEmpty then 1
    else
      match (tcp_check servers probe socket_path monitoring_samples prior
              snapData att).exc with
      | Option.none => 0
      | some _ => 1

/-- Observable outcome of `_update_consul_config` (src/charm.py:167-199):
the returned `changed` flag, the texts passed to `_write_configuration`,
and whether the blocked status for the missing consul-cluster integration
was set. -/
structure UpdateResult where
  changed : Bool
  writes : List String
  blockedStatus : Bool
  deriving DecidableEq, Repr

/-- `_update_consul_config` (src/charm.py:167-199).  `dc` and `eps` come
from the consul-cluster relation (`self.consul.datacenter`,
`self.consul.external_gossip_endpoints`); `notifyReady` is
`self.consul_notify.is_ready`; `onDisk` is the current file text, with
`Option.none` for `FileNotFoundError` (treated as `""`).  The comparison
on line 191 is between the `str` read from disk and the built `dict`. -/
def update_consul_config (dc : Option String) (eps : Option (List String))
    (notifyReady : Bool) (bind : Option String) (snapName hostname : String)
    (ports : Ports) (socketPath : Option String) (onDisk : Option String) :
    UpdateResult :=
  if pyTruthyStr dc && pyTruthyList eps then
    let cfg := (ConsulConfigBuilder.init bind (dc.getD "") notifyReady snapName
                  (eps.getD []) ports socketPath).build hostname
    let running := onDisk.getD ""
    if pyEqStr running cfg then ⟨false, [], false⟩
    else ⟨true, [pyDumps cfg 0], false⟩
  else ⟨false, [], true⟩

/-- Operator-visible unit statuses set by `_configure` and its callees. -/
inductive OpStatus where
  | active
  | blocked (msg : String)
  | maintenance (msg : String)
  deriving DecidableEq, Repr

/-- Observable outcome of one `_configure` run (src/charm.py:142-155):
config texts written, number of snap restart attempts, and the statuses
set, in order (the last one is what the operator sees). -/
structure ConfigureResult where
  writes : List String
  restartAttempts : Nat
  statuses : List OpStatus
  deriving DecidableEq, Repr

/-- `_wait_for_mandatory_relations` (src/charm.py:157-165): returns true
(blocking `_configure`) only when the datacenter AND the external gossip
endpoints are both falsy. -/
def wait_for_mandatory_relations (dc : Option String)
    (eps : Option (List String)) : Bool :=
  !pyTruthyStr dc && !pyTruthyList eps

/-- `_configure` (src/charm.py:142-155).  When the mandatory-relation
gate blocks, only the blocked status is set.  Otherwise
`_update_consul_config` runs (possibly setting the blocked status
itself); on `changed` a snap restart is attempted, a restart failure sets
a blocked status and returns, and in every other path `ActiveStatus` is
set last. -/
def configure (dc : Option String) (eps : Option (List String))
    (notifyReady : Bool) (bind : Option String) (snapName hostname : String)
    (ports : Ports) (socketPath : Option String) (onDisk : Option String)
    (restartOk : Bool) : ConfigureResult :=
  if wait_for_mandatory_relations dc eps then
    ⟨[], 0, [.blocked "Integration consul-cluster missing"]⟩
  else
    let u := update_consul_config dc eps notifyReady bind snapName hostname
               ports socketPath onDisk
    let pre : List OpStatus :=
      if u.blockedStatus then [.blocked "Integration consul-cluster missing"] else []
    if u.changed then
      if restartOk then ⟨u.writes, 1, pre ++ [.active]⟩
      else ⟨u.writes, 1, pre ++ [.blocked ("Failed to restart " ++ snapName)]⟩
    else ⟨u.writes, 0, pre ++ [.active]⟩

/-- Both error branches of the target parsing step raise `ValueError`. -/
theorem parseServer_error_eq (s : String) (e : PyExc)
    (h : parseServer s = .error e) : e = PyExc.valueError := by
  unfold parseServer at h
  split at h
  · split at h
    · simp at h
    · simp only [Except.error.injEq] at h
      exact h.symm
  · simp only [Except.error.injEq] at h
    exact h.symm

/-- If every target parses, the probe loop completes with some
`nic_down` flag. -/
theorem probeServers_ok_of_parse (probe : String → Int → Bool)
    (servers : List String)
    (h : ∀ s ∈ servers, ∃ hp, parseServer s = Except.ok hp) :
    ∃ b, probeServers probe servers = .ok b := by
  induction servers with
  | nil => exact ⟨false, rfl⟩
  | cons s rest ih =>
    obtain ⟨⟨host, port⟩, hs⟩ := h s (List.mem_cons_self s rest)
    obtain ⟨b, hb⟩ := ih (fun t ht => h t (List.mem_cons_of_mem _ ht))
    exact ⟨b || !probe host port, by simp [probeServers, hs, hb]⟩

/-- If every target parses and every probe succeeds, the loop reports
`nic_down = false`. -/
theorem probeServers_all_reachable (probe : String → Int → Bool)
    (servers : List String)
    (h : ∀ s ∈ servers, ∃ hp, parseServer s = Except.ok hp ∧ probe hp.1 hp.2 = true) :
    probeServers probe servers = .ok false := by
  induction servers with
  | nil => rfl
  | cons s rest ih =>
    obtain ⟨⟨host, port⟩, hs, hr⟩ := h s (List.mem_cons_self s rest)
    have hrest := ih (fun t ht => h t (List.mem_cons_of_mem _ ht))
    simp only at hr
    simp [probeServers, hs, hrest, hr]

/-- If every target parses and at least one probe fails, the loop reports
`nic_down = true`. -/
theorem probeServers_some_unreachable (probe : String → Int → Bool)
    (servers : List String)
    (hparse : ∀ s ∈ servers, ∃ hp, parseServer s = Except.ok hp)
    (hdown : ∃ s ∈ servers, ∃ hp, parseServer s = Except.ok hp ∧ probe hp.1 hp.2 = false) :
    probeServers probe servers = .ok true := by
  induction servers with
  | nil => simp at hdown
  | cons s rest ih =>
    obtain ⟨⟨host, port⟩, hs⟩ := hparse s (List.mem_cons_self s rest)
    obtain ⟨b, hb⟩ := probeServers_ok_of_parse probe rest
      (fun t ht => hparse t (List.mem_cons_of_mem _ ht))
    rcases hdown with ⟨t, ht, hp, hpt, hpf⟩
    rcases List.mem_cons.mp ht with rfl | htr
    · rw [hs] at hpt
      obtain rfl : hp = (host, port) := by
        simpa using hpt.symm
      simp only at hpf
      simp [probeServers, hs, hb, hpf]
    · have hrest := ih (fun u hu => hparse u (List.mem_cons_of_mem _ hu))
        ⟨t, htr, hp, hpt, hpf⟩
      simp [probeServers, hs, hrest]

/-- If some target is malformed, the probe loop aborts with
`ValueError`. -/
theorem probeServers_error_of_malformed (probe : String → Int → Bool)
    (servers : List String)
    (h : ∃ s ∈ servers, ∃ e, parseServer s = .error e) :
    probeServers probe servers = .error PyExc.valueError := by
  induction servers with
  | nil => simp at h
  | cons s rest ih =>
    rcases h with ⟨t, ht, e, hte⟩
    rcases List.mem_cons.mp ht with rfl | htr
    · have he := parseServer_error_eq t e hte
      subst he
      simp [probeServers, hte]
    · cases hs : parseServer s with
      | error e2 =>
        have he2 := parseServer_error_eq s e2 hs
        subst he2
        simp [probeServers, hs]
      | ok hp =>
        have hrest := ih ⟨t, htr, e, hte⟩
        obtain ⟨host, port⟩ := hp
        simp [probeServers, hs, hrest]

/-- In every branch of `build`, `bind_addr` maps to the builder's stored
bind address. -/
theorem build_bind_addr (b : ConsulConfigBuilder) (hostname : String) :
    (b.build hostname).get "bind_addr" = some (PyVal.str b.bind_address) := by
  simp only [ConsulConfigBuilder.build]
  split
  · rfl
  · rfl

/-- C1: for every input to the Config Builder's build operation, the
health-check service block is present if and only if `tcp_check` is true
and the socket path is non-empty; when present, the document sets
`enable_script_checks = true` and contains exactly one service named
`tcp-health-check` whose check argument vector contains every join
address and ends with `--socket-path` immediately followed by the given
socket path, with interval `10s` and timeout `5s`; when absent, the
document carries neither an `enable_script_checks` key nor a `services`
key. -/
theorem C1_health_check_service (bind : Option String) (dc : String) (tc : Bool)
    (snap hostname : String) (servers : List String) (ports : Ports)
    (sock : Option String) :
    ((((ConsulConfigBuilder.init bind dc tc snap servers ports sock).build hostname).get
        "services").isSome = true
      ↔ tc = true ∧ pyTruthyStr sock = true)
    ∧ (tc = true → pyTruthyStr sock = true →
        ((ConsulConfigBuilder.init bind dc tc snap servers ports sock).build hostname).get
            "enable_script_checks" = some (PyVal.bool true)
        ∧ ∃ args : List String,
            ((ConsulConfigBuilder.init bind dc tc snap servers ports sock).build hostname).get
                "services"
              = some (PyVal.list
                  [PyVal.dict
                    [("name", PyVal.str "tcp-health-check"),
                     ("check", PyVal.dict
                       [("id", PyVal.str "tcp-check"),
                        ("name", PyVal.str "TCP Health Check"),
                        ("args", PyVal.list (args.map PyVal.str)),
                        ("interval", PyVal.str "10s"),
                        ("timeout", PyVal.str "5s")])]])
            ∧ (∀ a ∈ servers, a ∈ args)
            ∧ ∃ pre, args = pre ++ ["--socket-path", sock.getD ""])
    ∧ (¬(tc = true ∧ pyTruthyStr sock = true) →
        ((ConsulConfigBuilder.init bind dc tc snap servers ports sock).build hostname).get
            "services" = Option.none
        ∧ ((ConsulConfigBuilder.init bind dc tc snap servers ports sock).build hostname).get
            "enable_script_checks" = Option.none) := by
  cases tc with
  | false =>
    refine ⟨?_, ?_, ?_⟩
    · simp
      rfl
    · intro h
      simp at h
    · intro _
      exact ⟨rfl, rfl⟩
  | true =>
    cases hs : pyTruthyStr sock with
    | false =>
      refine ⟨?_, ?_, ?_⟩
      · constructor
        · intro h
          have hnone : ((ConsulConfigBuilder.init bind dc true snap servers ports sock).build
              hostname).get "services" = Option.none := by
            simp [ConsulConfigBuilder.build, ConsulConfigBuilder.init, hs, PyVal.get]
          simp [hnone] at h
        · rintro ⟨-, h2⟩
          simp [hs] at h2
      · intro _ h2
        simp [hs] at h2
      · intro _
        constructor
        · simp [ConsulConfigBuilder.build, ConsulConfigBuilder.init, hs, PyVal.get]
        · simp [ConsulConfigBuilder.build, ConsulConfigBuilder.init, hs, PyVal.get]
    | true =>
      have hesc : ((ConsulConfigBuilder.init bind dc true snap servers ports sock).build
          hostname).get "enable_script_checks" = some (PyVal.bool true) := by
        simp [ConsulConfigBuilder.build, ConsulConfigBuilder.init,
          ConsulConfigBuilder.consul_tcp_check, hs, PyVal.get, List.lookup]
      have hsvc : ((ConsulConfigBuilder.init bind dc true snap servers ports sock).build
          hostname).get "services"
          = some (PyVal.list
              [PyVal.dict
                [("name", PyVal.str "tcp-health-check"),
                 ("check", PyVal.dict
                   [("id", PyVal.str "tcp-check"),
                    ("name", PyVal.str "TCP Health Check"),
                    ("args", PyVal.list (((["python3",
                        "/var/snap/" ++ snap ++ "/common/consul/data/tcp_health_check.py"]
                        ++ servers ++ ["--socket-path", sock.getD ""])).map PyVal.str)),
                    ("interval", PyVal.str "10s"),
                    ("timeout", PyVal.str "5s")])]]) := by
        simp [ConsulConfigBuilder.build, ConsulConfigBuilder.init,
          ConsulConfigBuilder.consul_tcp_check, hs, PyVal.get, List.lookup]
      refine ⟨?_, ?_, ?_⟩
      · simp [hsvc]
      · intro _ _
        refine ⟨hesc, ⟨["python3",
            "/var/snap/" ++ snap ++ "/common/consul/data/tcp_health_check.py"]
            ++ servers ++ ["--socket-path", sock.getD ""], hsvc, ?_, ?_⟩⟩
        · intro a ha
          simp [ha]
        · exact ⟨["python3",
            "/var/snap/" ++ snap ++ "/common/consul/data/tcp_health_check.py"]
            ++ servers, by simp⟩
      · intro h
        simp [hs] at h

/-- Witness for C1 at a concrete input: health check enabled, socket path
`data/socket.sock`. -/
theorem C1_health_check_service_witness :
    pyTruthyStr (some "data/socket.sock") = true
    ∧ ((ConsulConfigBuilder.init Option.none "test-dc" true "snapx"
          ["10.20.0.10:8301"] portsDefault (some "data/socket.sock")).build "node1").get
        "enable_script_checks" = some (PyVal.bool true) :=
  ⟨by decide,
   ((C1_health_check_service Option.none "test-dc" true "snapx" "node1"
      ["10.20.0.10:8301"] portsDefault (some "data/socket.sock")).2.1 rfl (by decide)).1⟩

/-- C10: a `bind_address` given as the empty string (not only as absent)
yields the wildcard `0.0.0.0` in the built document, and consequently
`bind_addr` in the built document is never the empty string. -/
theorem C10_bind_addr_never_empty (bind : Option String) (dc : String) (tc : Bool)
    (snap hostname : String) (servers : List String) (ports : Ports)
    (sock : Option String) :
    ((ConsulConfigBuilder.init (some "") dc tc snap servers ports sock).build hostname).get
        "bind_addr" = some (PyVal.str "0.0.0.0")
    ∧ ∃ s : String,
        ((ConsulConfigBuilder.init bind dc tc snap servers ports sock).build hostname).get
          "bind_addr" = some (PyVal.str s) ∧ s ≠ "" := by
  constructor
  · rw [build_bind_addr]
    rfl
  · refine ⟨(ConsulConfigBuilder.init bind dc tc snap servers ports sock).bind_address,
      build_bind_addr _ _, ?_⟩
    unfold ConsulConfigBuilder.init
    cases hb : pyTruthyStr bind with
    | false => simp [hb]
    | true =>
      cases bind with
      | none => simp [pyTruthyStr] at hb
      | some t =>
        simp only [pyTruthyStr, Bool.not_eq_true'] at hb
        have ht : ¬ t = "" := by
          intro h
          subst h
          have h2 : String.isEmpty "" = true := (String.isEmpty_iff "").mpr rfl
          rw [h2] at hb
          exact absurd hb (by decide)
        simp [hb, pyTruthyStr, ht]


/-- Whether an `Except` value is a normal return. -/
def exceptOk {ε : Type} {α : Type} : Except ε α → Bool
  | .ok _ => true
  | .error _ => false

/-- A normal return carries a value. -/
theorem exceptOk_exists {ε : Type} {α : Type} (x : Except ε α)
    (h : exceptOk x = true) : ∃ a, x = .ok a := by
  cases x with
  | ok a => exact ⟨a, rfl⟩
  | error e => simp [exceptOk] at h

/-- With `SNAP_DATA` set, the alert transport returns normally for every
transport outcome: the two `except` clauses together catch every failure
of the guarded block. -/
theorem send_nic_down_alert_ok (d socket_path : String) (att : AlertAttempt) :
    exceptOk (send_nic_down_alert (some d) socket_path att) = true := by
  obtain ⟨c, sd, r, p⟩ := att
  cases c with
  | false => rfl
  | true =>
    cases sd with
    | false => rfl
    | true =>
      cases r with
      | sockErr => rfl
      | decodeErr => rfl
      | text s =>
        cases p with
        | parseErr => rfl
        | obj status message =>
          cases hst : status == some "error" with
          | true => simp [send_nic_down_alert, hst, exceptOk]
          | false => simp [send_nic_down_alert, hst, exceptOk]

/-- Evaluation of a `tcp_check` round whose probe phase reports
`nic_down = true`. -/
theorem tcp_check_down_eval (servers : List String) (probe : String → Int → Bool)
    (sp : Option String) (ms : Int) (prior : Nat) (snapData : Option String)
    (att : AlertAttempt)
    (hps : probeServers probe servers = .ok true) :
    tcp_check servers probe sp ms prior snapData att =
      if ((prior + 1 : Nat) : Int) ≥ ms then
        if pyTruthyStr sp then
          match send_nic_down_alert snapData (sp.getD "") att with
          | .ok _ => ⟨[prior + 1, 0], [sp.getD ""], Option.none⟩
          | .error e => ⟨[prior + 1], [sp.getD ""], some e⟩
        else ⟨[prior + 1], [], Option.none⟩
      else ⟨[prior + 1], [], Option.none⟩ := by
  unfold tcp_check
  rw [hps]
  rfl

/-- C7: when every target is reachable (including the vacuous empty list),
no alert is sent and no exception escapes; a positive prior count is reset
to 0 with exactly one persistence write, and a zero prior count causes no
write at all. -/
theorem C7_all_reachable_reset (servers : List String) (probe : String → Int → Bool)
    (sp : Option String) (ms : Int) (prior : Nat) (snapData : Option String)
    (att : AlertAttempt)
    (h : ∀ s ∈ servers, ∃ hp, parseServer s = Except.ok hp ∧ probe hp.1 hp.2 = true) :
    (tcp_check servers probe sp ms prior snapData att).alerts = []
    ∧ (tcp_check servers probe sp ms prior snapData att).exc = Option.none
    ∧ (prior > 0 → (tcp_check servers probe sp ms prior snapData att).writes = [0])
    ∧ (prior = 0 → (tcp_check servers probe sp ms prior snapData att).writes = []) := by
  have hps := probeServers_all_reachable probe servers h
  by_cases h0 : prior > 0
  · have hne : ¬ prior = 0 := by omega
    simp [tcp_check, hps, h0, hne]
  · have he : prior = 0 := by omega
    simp [tcp_check, hps, h0, he]

/-- Witness for C7: one reachable target, prior count 2. -/
theorem C7_all_reachable_reset_witness :
    (tcp_check ["10.0.0.1:8301"] (fun _ _ => true) (some "data/socket.sock") 3 2
        Option.none attemptOk).alerts = []
    ∧ (tcp_check ["10.0.0.1:8301"] (fun _ _ => true) (some "data/socket.sock") 3 2
        Option.none attemptOk).writes = [0] := by
  have h := C7_all_reachable_reset ["10.0.0.1:8301"] (fun _ _ => true)
    (some "data/socket.sock") 3 2 Option.none attemptOk
    (by
      intro s hs
      rw [List.mem_singleton] at hs
      subst hs
      exact ⟨("10.0.0.1", 8301), rfl, rfl⟩)
  exact ⟨h.1, h.2.2.1 (by omega)⟩

/-- C3 (amended): in a round with at least one unreachable target, run in
an environment where `SNAP_DATA` is set (so that the alert transport
returns normally), the failure count is incremented and persisted; on
crossing the threshold with a truthy socket path exactly one alert is
sent and the count is then reset to 0 and persisted; below the threshold
no alert is sent and the incremented count is the only write. -/
theorem C3_failure_counting (servers : List String) (probe : String → Int → Bool)
    (sp : Option String) (ms : Int) (prior : Nat) (d : String) (att : AlertAttempt)
    (hparse : ∀ s ∈ servers, ∃ hp, parseServer s = Except.ok hp)
    (hdown : ∃ s ∈ servers, ∃ hp, parseServer s = Except.ok hp ∧ probe hp.1 hp.2 = false) :
    (tcp_check servers probe sp ms prior (some d) att).writes.head? = some (prior + 1)
    ∧ (((prior + 1 : Nat) : Int) ≥ ms → pyTruthyStr sp = true →
        (tcp_check servers probe sp ms prior (some d) att).alerts = [sp.getD ""]
        ∧ (tcp_check servers probe sp ms prior (some d) att).writes = [prior + 1, 0])
    ∧ (((prior + 1 : Nat) : Int) < ms →
        (tcp_check servers probe sp ms prior (some d) att).alerts = []
        ∧ (tcp_check servers probe sp ms prior (some d) att).writes = [prior + 1]) := by
  have hps := probeServers_some_unreachable probe servers hparse hdown
  obtain ⟨logs, hsend⟩ :=
    exceptOk_exists _ (send_nic_down_alert_ok d (sp.getD "") att)
  rw [tcp_check_down_eval servers probe sp ms prior (some d) att hps, hsend]
  refine ⟨?_, ?_, ?_⟩
  · split
    · split
      · rfl
      · rfl
    · rfl
  · intro h1 h2
    rw [if_pos h1, if_pos h2]
    exact ⟨rfl, rfl⟩
  · intro h1
    rw [if_neg (by omega)]
    exact ⟨rfl, rfl⟩

/-- Witness for C3: one unreachable target, prior count 2, threshold 3. -/
theorem C3_failure_counting_witness :
    (tcp_check ["10.0.0.1:8301"] (fun _ _ => false) (some "data/socket.sock") 3 2
        (some "/var/snap/foo/common") attemptOk).alerts = ["data/socket.sock"]
    ∧ (tcp_check ["10.0.0.1:8301"] (fun _ _ => false) (some "data/socket.sock") 3 2
        (some "/var/snap/foo/common") attemptOk).writes = [3, 0] :=
  (C3_failure_counting ["10.0.0.1:8301"] (fun _ _ => false) (some "data/socket.sock")
    3 2 "/var/snap/foo/common" attemptOk
    (by
      intro s hs
      rw [List.mem_singleton] at hs
      subst hs
      exact ⟨("10.0.0.1", 8301), rfl⟩)
    ⟨"10.0.0.1:8301", by simp, ("10.0.0.1", 8301), rfl, rfl⟩).2.1
    (by decide) (by decide)

/-- C3 counterexample: at the same threshold-crossing input but with
`SNAP_DATA` unset in the environment, the alert call raises `KeyError`
out of the round and the reset write never happens, so the claim's
unconditional "reset to 0 and persisted" is false on the code. -/
theorem C3_no_reset_without_snap_data :
    tcp_check ["10.0.0.1:8301"] (fun _ _ => false) (some "data/socket.sock") 3 2
        Option.none attemptOk
      = ⟨[3], ["data/socket.sock"], some PyExc.keyError⟩ := by
  rfl

/-- An attempt whose `connect` stage fails (the peer is unreachable). -/
def attemptConnectFail : AlertAttempt :=
  { connectOk := false, sendOk := true, recv := .text "", parse := .parseErr }

/-- C4 counterexample: a threshold-crossing round whose alert send fails
at the connect stage (so the alert is not transport-confirmed) still
resets the persisted failure count to 0: the failure is swallowed inside
`send_nic_down_alert` and `tcp_check` cannot observe it. -/
theorem C4_reset_despite_failed_send :
    tcp_check ["10.0.0.1:8301"] (fun _ _ => false) (some "data/socket.sock") 1 0
        (some "/var/snap/foo/common") attemptConnectFail
      = ⟨[1, 0], ["data/socket.sock"], Option.none⟩
    ∧ attemptConnectFail.connectOk = false := ⟨rfl, rfl⟩

/-- C4 (amended): in a threshold-crossing round with a truthy socket
path, the reset-to-zero write follows whenever `send_nic_down_alert`
returns normally, which it does for every transport outcome (confirmed or
not); the reset is skipped only when the call raises, which happens only
when `SNAP_DATA` is unset in the environment. -/
theorem C4_reset_follows_send_return (servers : List String)
    (probe : String → Int → Bool) (sp : Option String) (ms : Int) (prior : Nat)
    (snapData : Option String) (att : AlertAttempt)
    (hparse : ∀ s ∈ servers, ∃ hp, parseServer s = Except.ok hp)
    (hdown : ∃ s ∈ servers, ∃ hp, parseServer s = Except.ok hp ∧ probe hp.1 hp.2 = false)
    (hthr : ((prior + 1 : Nat) : Int) ≥ ms) (hsock : pyTruthyStr sp = true) :
    ((∃ d, snapData = some d) →
        (tcp_check servers probe sp ms prior snapData att).writes = [prior + 1, 0])
    ∧ (snapData = Option.none →
        (tcp_check servers probe sp ms prior snapData att).writes = [prior + 1]
        ∧ (tcp_check servers probe sp ms prior snapData att).exc
            = some PyExc.keyError) := by
  have hps := probeServers_some_unreachable probe servers hparse hdown
  rw [tcp_check_down_eval servers probe sp ms prior snapData att hps,
    if_pos hthr, if_pos hsock]
  constructor
  · rintro ⟨d, rfl⟩
    obtain ⟨logs, hsend⟩ :=
      exceptOk_exists _ (send_nic_down_alert_ok d (sp.getD "") att)
    rw [hsend]
  · rintro rfl
    exact ⟨rfl, rfl⟩

/-- Witness for C4: the reset write happens at a concrete
threshold-crossing input with a failed (unconfirmed) send. -/
theorem C4_reset_follows_send_return_witness :
    (tcp_check ["10.0.0.2:8301"] (fun _ _ => false) (some "data/socket.sock") 1 0
        (some "/var/snap/bar/common") attemptConnectFail).writes = [1, 0] :=
  (C4_reset_follows_send_return ["10.0.0.2:8301"] (fun _ _ => false)
    (some "data/socket.sock") 1 0 (some "/var/snap/bar/common") attemptConnectFail
    (by
      intro s hs
      rw [List.mem_singleton] at hs
      subst hs
      exact ⟨("10.0.0.2", 8301), rfl⟩)
    ⟨"10.0.0.2:8301", by simp, ("10.0.0.2", 8301), rfl, rfl⟩
    (by decide) (by decide)).1 ⟨"/var/snap/bar/common", rfl⟩

/-- C6 counterexample: with `SNAP_DATA` unset in the environment,
`send_nic_down_alert` raises `KeyError` to its caller (the
`os.environ` lookup happens before the `try` block), so the claim's
"for every environment, returns normally" is false on the code. -/
theorem C6_raises_without_snap_data :
    send_nic_down_alert Option.none "data/socket.sock" attemptOk
      = Except.error PyExc.keyError := rfl

/-- C6 (amended): provided `SNAP_DATA` is set in the environment,
`send_nic_down_alert` returns normally for every transport outcome, and
every failure at the connect, send, receive, or response-parse stage is
caught and produces an error-level log entry. -/
theorem C6_send_never_raises (d socket_path : String) (att : AlertAttempt) :
    exceptOk (send_nic_down_alert (some d) socket_path att) = true
    ∧ (att.connectOk = false ∨ att.sendOk = false ∨ att.recv = RecvOutcome.sockErr
        ∨ att.recv = RecvOutcome.decodeErr ∨ att.parse = ParseOutcome.parseErr →
        ∃ logs, send_nic_down_alert (some d) socket_path att = Except.ok logs
          ∧ ∃ e ∈ logs, e.level = LogLevel.error) := by
  refine ⟨send_nic_down_alert_ok d socket_path att, ?_⟩
  obtain ⟨c, sd, r, p⟩ := att
  intro h
  cases c with
  | false =>
    exact ⟨_, rfl, ⟨⟨.error, "Socket error: connect failed"⟩, by simp, rfl⟩⟩
  | true =>
    cases sd with
    | false =>
      exact ⟨_, rfl, ⟨⟨.error, "Socket error: send failed"⟩, by simp, rfl⟩⟩
    | true =>
      cases r with
      | sockErr =>
        exact ⟨_, rfl, ⟨⟨.error, "Socket error: recv failed"⟩, by simp, rfl⟩⟩
      | decodeErr =>
        exact ⟨_, rfl,
          ⟨⟨.error, "Error sending alert signal: decode failed"⟩, by simp, rfl⟩⟩
      | text s =>
        cases p with
        | parseErr =>
          exact ⟨_, rfl,
            ⟨⟨.error, "Error sending alert signal: invalid response"⟩, by simp, rfl⟩⟩
        | obj status message =>
          rcases h with h | h | h | h | h <;> simp at h

/-- Witness for C6: a connect failure is swallowed and logged at error
level. -/
theorem C6_send_never_raises_witness :
    ∃ logs, send_nic_down_alert (some "/var/snap/foo/common") "data/socket.sock"
        attemptConnectFail = Except.ok logs
      ∧ ∃ e ∈ logs, e.level = LogLevel.error :=
  (C6_send_never_raises "/var/snap/foo/common" "data/socket.sock"
    attemptConnectFail).2 (Or.inl rfl)

/-- C8: a round whose target list contains a malformed entry aborts as a
whole with `ValueError`: no per-target recovery, no persistence write, no
alert, regardless of every other input. -/
theorem C8_malformed_target_aborts (servers : List String)
    (probe : String → Int → Bool) (sp : Option String) (ms : Int) (prior : Nat)
    (snapData : Option String) (att : AlertAttempt)
    (hbad : ∃ s ∈ servers, ∃ e, parseServer s = Except.error e) :
    tcp_check servers probe sp ms prior snapData att
      = ⟨[], [], some PyExc.valueError⟩ := by
  have h := probeServers_error_of_malformed probe servers hbad
  simp [tcp_check, h]

/-- Witness for C8: the malformed target `not-an-address`. -/
theorem C8_malformed_target_aborts_witness :
    tcp_check ["not-an-address"] (fun _ _ => true) (some "data/socket.sock") 3 0
        Option.none attemptOk = ⟨[], [], some PyExc.valueError⟩ :=
  C8_malformed_target_aborts ["not-an-address"] (fun _ _ => true)
    (some "data/socket.sock") 3 0 Option.none attemptOk
    ⟨"not-an-address", by simp, PyExc.valueError, rfl⟩

/-- C9 counterexample: with no servers supplied, the entry point exits
with argparse's usage-error code 2, not with code 1 as the claim
states. -/
theorem C9_no_servers_exit_code_2 :
    main_exit_code [] Option.none 3 (fun _ _ => true) 0 Option.none attemptOk = 2
    ∧ (main_exit_code [] Option.none 3 (fun _ _ => true) 0 Option.none attemptOk == 1)
        = false := ⟨rfl, rfl⟩

/-- C9 (amended): with no servers supplied the entry point exits 2 (the
argparse usage error; the explicit exit-1 branch is unreachable); with
servers supplied it exits 0 whenever `tcp_check` returns normally,
regardless of reachability, and exits 1 when an unhandled exception
(malformed target, or missing `SNAP_DATA` on an alert) escapes the
round. -/
theorem C9_exit_codes (positional : List String) (sp : Option String) (ms : Int)
    (probe : String → Int → Bool) (prior : Nat) (snapData : Option String)
    (att : AlertAttempt) :
    (positional = [] → main_exit_code positional sp ms probe prior snapData att = 2)
    ∧ (positional ≠ [] →
        (tcp_check positional probe sp ms prior snapData att).exc = Option.none →
        main_exit_code positional sp ms probe prior snapData att = 0)
    ∧ (positional ≠ [] → ∀ e : PyExc,
        (tcp_check positional probe sp ms prior snapData att).exc = some e →
        main_exit_code positional sp ms probe prior snapData att = 1) := by
  refine ⟨?_, ?_, ?_⟩
  · rintro rfl
    rfl
  · intro hne hexc
    cases positional with
    | nil => exact absurd rfl hne
    | cons a rest => simp [main_exit_code, parse_args_servers, hexc]
  · intro hne e hexc
    cases positional with
    | nil => exact absurd rfl hne
    | cons a rest => simp [main_exit_code, parse_args_servers, hexc]

/-- Witness for C9: one reachable server, exit code 0. -/
theorem C9_exit_codes_witness :
    main_exit_code ["10.0.0.1:8301"] (some "data/socket.sock") 3 (fun _ _ => true) 0
        Option.none attemptOk = 0 :=
  (C9_exit_codes ["10.0.0.1:8301"] (some "data/socket.sock") 3 (fun _ _ => true) 0
      Option.none attemptOk).2.1 (by simp) rfl

/-- C2 (code evaluated at the failing input): whatever text is on disk,
the reconciler reports `changed = true` and writes, because line 191
compares the `str` file text with the built `dict`, which is never equal
in Python; in particular a second reconciliation given the first run's
own serialized output as the current text still reports `changed = true`
and rewrites the file. -/
theorem C2_reconciler_always_writes :
    (∀ text : String,
        (update_consul_config (some "test-dc") (some ["10.20.0.10:8301"]) false
            Option.none "snapx" "node1" portsDefault Option.none
            (some text)).changed = true)
    ∧ update_consul_config (some "test-dc") (some ["10.20.0.10:8301"]) false
          Option.none "snapx" "node1" portsDefault Option.none
          (some (pyDumps ((ConsulConfigBuilder.init Option.none "test-dc" false "snapx"
              ["10.20.0.10:8301"] portsDefault Option.none).build "node1") 0))
        = ⟨true,
           [pyDumps ((ConsulConfigBuilder.init Option.none "test-dc" false "snapx"
              ["10.20.0.10:8301"] portsDefault Option.none).build "node1") 0],
           false⟩ := by
  constructor
  · intro text
    rfl
  · rfl

/-- C5 (code evaluated at the failing input): with the datacenter present
but the gossip endpoint list empty, `_configure` writes nothing and
attempts no restart, but its final status is `ActiveStatus` — the blocked
status set inside `_update_consul_config` is immediately overwritten —
while with both pieces missing the blocked status is final, as the claim
expects. -/
theorem C5_active_status_despite_missing_endpoints :
    configure (some "test-dc") (some []) false Option.none "snapx" "node1"
        portsDefault Option.none Option.none true
      = ⟨[], 0, [OpStatus.blocked "Integration consul-cluster missing",
                 OpStatus.active]⟩
    ∧ (configure (some "test-dc") (some []) false Option.none "snapx" "node1"
        portsDefault Option.none Option.none true).statuses.getLast?
        = some OpStatus.active
    ∧ configure Option.none Option.none false Option.none "snapx" "node1"
        portsDefault Option.none Option.none true
      = ⟨[], 0, [OpStatus.blocked "Integration consul-cluster missing"]⟩ :=
  ⟨rfl, rfl, rfl⟩

/-- Witness for C10: the empty bind address at a concrete input yields
the wildcard. -/
theorem C10_bind_addr_never_empty_witness :
    ((ConsulConfigBuilder.init (some "") "test-dc" false "snapx" ["10.20.0.10:8301"]
        portsDefault Option.none).build "node1").get "bind_addr"
      = some (PyVal.str "0.0.0.0") :=
  (C10_bind_addr_never_empty (some "") "test-dc" false "snapx" "node1"
    ["10.20.0.10:8301"] portsDefault Option.none).1
